import Mathlib

/-!
Verification of the BLE Central host stack (SX1280 implementation).

This file gives a shallow embedding, in Lean, of the parts of the C source
that the specification claims talk about: the CRC-24 routine and its table
(`ble_ll_missing.c`), access-address validation and generation, channel
selection algorithm #1, the Master connection-event loop (`ble_ll.c`),
the LL data send path, and the GATT/ATT client request path (`ble_gatt.c`).
Machine integers are modelled as `Nat` with explicit masking where the C
code truncates; byte buffers are `List Nat`; out-of-bounds buffer writes
are modelled by `Option` (a write past the end of a fixed C array is
undefined behaviour and yields `none`).
-/

namespace BleStack

/-- Status codes, from `ble_status_t` in `ble_defs.h`. -/
inductive BleStatus where
  | ok
  | error
  | timeout
  | noMemory
  | invalidParams
  | notConnected
  | alreadyConnected
  | busy
  | unknownDevice
  | protocolError
deriving DecidableEq

/-- Connection states, from `ble_conn_state_t` in `ble_defs.h`. -/
inductive ConnState where
  | idle
  | scanning
  | initiating
  | connection
  | connected
  | disconnecting
deriving DecidableEq

/-- Write one byte into a buffer; `none` when the index is out of bounds
(a C write past the end of the array is undefined behaviour). -/
def mem_write (buf : List Nat) (i v : Nat) : Option (List Nat) :=
  if i < buf.length then some (buf.set i v) else none

/-- The effect of `memcpy(&buf[off], src, src.length)`; `none` when any
byte would land out of bounds. -/
def mem_copy (buf : List Nat) (off : Nat) (src : List Nat) : Option (List Nat) :=
  if off + src.length ≤ buf.length then
    some ((buf.take off) ++ src ++ (buf.drop (off + src.length)))
  else none

/-- The effect of `memcpy(buf, src, src.length)` onto the front of a buffer
that is known to be at least as long as `src` (the C buffers are fixed
255-byte arrays); extra source bytes extend the list. -/
def write_front (buf src : List Nat) : List Nat :=
  src ++ buf.drop src.length

/-- The complete CRC-24 lookup table `crc24_table` from `ble_ll_missing.c`,
transcribed verbatim. -/
def crc24_table : List Nat := [
  0x000000, 0x01B4C0, 0x036980, 0x02DD40, 0x06D300, 0x0767C0, 0x05BA80, 0x040E40,
  0x0DA600, 0x0C12C0, 0x0ECF80, 0x0F7B40, 0x0B7500, 0x0AC1C0, 0x081C80, 0x09A840,
  0x1B4C00, 0x1AF8C0, 0x182580, 0x199140, 0x1D9F00, 0x1C2BC0, 0x1EF680, 0x1F4240,
  0x16EA00, 0x175EC0, 0x158380, 0x143740, 0x103900, 0x118DC0, 0x135080, 0x12E440,
  0x369800, 0x372CC0, 0x35F180, 0x344540, 0x304B00, 0x31FFC0, 0x332280, 0x329640,
  0x3B3E00, 0x3A8AC0, 0x385780, 0x39E340, 0x3DED00, 0x3C59C0, 0x3E8480, 0x3F3040,
  0x2DD400, 0x2C60C0, 0x2EBD80, 0x2F0940, 0x2B0700, 0x2AB3C0, 0x286E80, 0x29DA40,
  0x207200, 0x21C6C0, 0x231B80, 0x22AF40, 0x26A100, 0x2715C0, 0x25C880, 0x247C40,
  0x6D3000, 0x6C84C0, 0x6E5980, 0x6FED40, 0x6BE300, 0x6A57C0, 0x688A80, 0x693E40,
  0x609600, 0x6122C0, 0x63FF80, 0x624B40, 0x664500, 0x67F1C0, 0x652C80, 0x649840,
  0x767C00, 0x77C8C0, 0x751580, 0x74A140, 0x70AF00, 0x711BC0, 0x73C680, 0x727240,
  0x7BDA00, 0x7A6EC0, 0x78B380, 0x790740, 0x7D0900, 0x7CBDC0, 0x7E6080, 0x7FD440,
  0x5BA800, 0x5A1CC0, 0x58C180, 0x597540, 0x5D7B00, 0x5CCFC0, 0x5E1280, 0x5FA640,
  0x560E00, 0x57BAC0, 0x556780, 0x54D340, 0x50DD00, 0x5169C0, 0x53B480, 0x520040,
  0x40E400, 0x4150C0, 0x438D80, 0x423940, 0x463700, 0x4783C0, 0x455E80, 0x44EA40,
  0x4D4200, 0x4CF6C0, 0x4E2B80, 0x4F9F40, 0x4B9100, 0x4A25C0, 0x48F880, 0x494C40,
  0xDA6000, 0xDBD4C0, 0xD90980, 0xD8BD40, 0xDCB300, 0xDD07C0, 0xDFDA80, 0xDE6E40,
  0xD7C600, 0xD672C0, 0xD4AF80, 0xD51B40, 0xD11500, 0xD0A1C0, 0xD27C80, 0xD3C840,
  0xC12C00, 0xC098C0, 0xC24580, 0xC3F140, 0xC7FF00, 0xC64BC0, 0xC49680, 0xC52240,
  0xCC8A00, 0xCD3EC0, 0xCFE380, 0xCE5740, 0xCA5900, 0xCBEDC0, 0xC93080, 0xC88440,
  0xECF800, 0xED4CC0, 0xEF9180, 0xEE2540, 0xEA2B00, 0xEB9FC0, 0xE94280, 0xE8F640,
  0xE15E00, 0xE0EAC0, 0xE23780, 0xE38340, 0xE78D00, 0xE639C0, 0xE4E480, 0xE55040,
  0xF7B400, 0xF600C0, 0xF4DD80, 0xF56940, 0xF16700, 0xF0D3C0, 0xF20E80, 0xF3BA40,
  0xFA1200, 0xFBA6C0, 0xF97B80, 0xF8CF40, 0xFCC100, 0xFD75C0, 0xFF8880, 0xFE3C40,
  0xB67000, 0xB7C4C0, 0xB51980, 0xB4AD40, 0xB0A300, 0xB117C0, 0xB3CA80, 0xB27E40,
  0xBBD600, 0xBA62C0, 0xB8BF80, 0xB90B40, 0xBD0500, 0xBCB1C0, 0xBE6C80, 0xBFD840,
  0xAD3C00, 0xAC88C0, 0xAE5580, 0xAFE140, 0xABEF00, 0xAA5BC0, 0xA88680, 0xA93240,
  0xA09A00, 0xA12EC0, 0xA3F380, 0xA24740, 0xA64900, 0xA7FDC0, 0xA52080, 0xA49440,
  0x80E800, 0x815CC0, 0x838180, 0x823540, 0x863B00, 0x878FC0, 0x855280, 0x84E640,
  0x8D4E00, 0x8CFAC0, 0x8E2780, 0x8F9340, 0x8B9D00, 0x8A29C0, 0x88F480, 0x894040,
  0x9BA400, 0x9A10C0, 0x98CD80, 0x997940, 0x9D7700, 0x9CC3C0, 0x9E1E80, 0x9FAA40,
  0x960200, 0x97B6C0, 0x956B80, 0x94DF40, 0x90D100, 0x9165C0, 0x93B880, 0x920C40]

/-- One byte step of the table-driven CRC loop in `ble_ll_calculate_crc24`
(`ble_ll_missing.c` lines 273-276). -/
def crc24_step (crc b : Nat) : Nat :=
  let tbl_idx := ((crc >>> 16) ^^^ b) &&& 0xFF
  ((crc <<< 8) ^^^ crc24_table.getD tbl_idx 0) &&& 0xFFFFFF

/-- `ble_ll_calculate_crc24(data, len, crc_init)` from `ble_ll_missing.c`:
table-driven 24-bit CRC over the bytes of `data`, with `len = data.length`. -/
def ble_ll_calculate_crc24 (data : List Nat) (crc_init : Nat) : Nat :=
  data.foldl crc24_step (crc_init &&& 0xFFFFFF)

/-- Modelled from the spec: one input bit of the bitwise reference BLE
CRC-24. The reference LFSR is the serial BLE CRC over the polynomial
0x100065B; bits enter least-significant first and the state shifts right,
so the feedback mask is the 24-bit reversal of 0x65B, namely 0xDA6000. -/
def crc24_ref_bit (state bit : Nat) : Nat :=
  let nb := (state ^^^ bit) &&& 1
  (state >>> 1) ^^^ (if nb = 1 then 0xDA6000 else 0)

/-- Modelled from the spec: the bitwise reference consumes the eight bits
of a byte least-significant first. -/
def crc24_ref_byte (state b : Nat) : Nat :=
  (List.range 8).foldl (fun s j => crc24_ref_bit s ((b >>> j) &&& 1)) state

/-- Modelled from the spec: the bitwise reference BLE CRC-24 over the
polynomial 0x100065B with a given 24-bit initial value (spec section 4.3
and section 8, "bitwise reference implementation"). -/
def crc24_bitwise_ref (data : List Nat) (crc_init : Nat) : Nat :=
  data.foldl crc24_ref_byte (crc_init &&& 0xFFFFFF)

/-- The connection context `ble_conn_context_s` from `ble_ll.h`, restricted
to the fields read or written by the functions embedded here. Byte arrays
(`channel_map[5]`, `tx_buffer[255]`, `rx_buffer[255]`) are byte lists. -/
structure ConnCtx where
  conn_state : ConnState
  channel_map : List Nat
  hop_increment : Nat
  last_unmapped_channel : Nat
  num_used_channels : Nat
  current_channel : Nat
  event_counter : Nat
  anchor_point : Nat
  conn_interval : Nat
  supervision_timeout : Nat
  tx_seq_num : Nat
  next_expected_seq_num : Nat
  tx_buffer : List Nat
  tx_length : Nat
  tx_pending : Bool
  rx_buffer : List Nat
  rx_length : Nat
  consecutive_crc_errors : Nat
  total_crc_errors : Nat
  more_data : Bool
deriving DecidableEq

/-- The channel-map bit test
`ctx->channel_map[ch >> 3] & (1 << (ch & 0x07))` from
`ble_ll_calculate_next_channel` (`ble_ll.c` lines 560 and 570). -/
def channel_map_bit (map : List Nat) (ch : Nat) : Bool :=
  (map.getD (ch >>> 3) 0) &&& (1 <<< (ch &&& 0x07)) ≠ 0

/-- The remapping loop of `ble_ll_calculate_next_channel` (`ble_ll.c`
lines 568-576): walk the channels in order, counting set channel-map bits,
and return the channel whose running count equals `target`; 0 when the
walk falls off the end. -/
def find_nth_used (map : List Nat) (target : Nat) : List Nat → Nat → Nat
  | [], _ => 0
  | ch :: rest, count =>
    if channel_map_bit map ch then
      if count = target then ch else find_nth_used map target rest (count + 1)
    else find_nth_used map target rest count

/-- `ble_ll_calculate_next_channel` from `ble_ll.c` lines 549-579: channel
selection algorithm #1. Returns the selected data channel together with
the updated context (`last_unmapped_channel` is stored before the map
check, hence updated also when remapping occurs). -/
def ble_ll_calculate_next_channel (ctx : ConnCtx) : Nat × ConnCtx :=
  let unmapped := (ctx.last_unmapped_channel + ctx.hop_increment) % 37
  let ctx' := { ctx with last_unmapped_channel := unmapped }
  if channel_map_bit ctx.channel_map unmapped then
    (unmapped, ctx')
  else
    let remapping_index := unmapped % ctx.num_used_channels
    (find_nth_used ctx.channel_map remapping_index (List.range 37) 0, ctx')

/-- Number of set bits of the 37-channel map, counting channels 0..36. -/
def popcount37 (map : List Nat) : Nat :=
  (List.range 37).countP (channel_map_bit map)

/-- A concrete context used to witness theorems with hypotheses: a fresh
Connected master context with the all-37 channel map, as set up by
`ble_ll_init` and `ble_ll_connect`. -/
def ctx_ex : ConnCtx := {
  conn_state := ConnState.connected
  channel_map := [0xFF, 0xFF, 0xFF, 0xFF, 0x1F]
  hop_increment := 7
  last_unmapped_channel := 0
  num_used_channels := 37
  current_channel := 0
  event_counter := 0
  anchor_point := 0
  conn_interval := 50000
  supervision_timeout := 100
  tx_seq_num := 0
  next_expected_seq_num := 0
  tx_buffer := List.replicate 255 0
  tx_length := 0
  tx_pending := false
  rx_buffer := List.replicate 255 0
  rx_length := 0
  consecutive_crc_errors := 0
  total_crc_errors := 0
  more_data := false }

/-- Bit `i` of a word. -/
def aaBit (v i : Nat) : Nat := (v >>> i) &&& 1

/-- The consecutive-ones counter update of the run-length loop in
`ll_validate_access_address` (`ble_ll_missing.c` lines 617-622). -/
def aa_step_co (v co : Nat) : Nat := if v &&& 1 = 1 then co + 1 else 0

/-- The consecutive-zeros counter update of the run-length loop. -/
def aa_step_cz (v cz : Nat) : Nat := if v &&& 1 = 1 then 0 else cz + 1

/-- Rule-2 loop of `ll_validate_access_address` (`ble_ll_missing.c` lines
611-637): scan the 32 bits, tracking runs of identical bits and the
maximal run seen; reject (return `false`) as soon as the maximum exceeds
6. -/
def aa_run_loop (v : Nat) : Nat → Nat → Nat → Nat → Bool
  | 0, _, _, _ => true
  | n + 1, co, cz, mx =>
    if 6 < max mx (max (aa_step_co v co) (aa_step_cz v cz)) then false
    else aa_run_loop (v >>> 1) n (aa_step_co v co) (aa_step_cz v cz)
      (max mx (max (aa_step_co v co) (aa_step_cz v cz)))

/-- The same scan without the early exit, returning the final maximal run
counter; used to reason about `aa_run_loop`. -/
def aa_run_max (v : Nat) : Nat → Nat → Nat → Nat → Nat
  | 0, _, _, mx => mx
  | n + 1, co, cz, mx =>
    aa_run_max (v >>> 1) n (aa_step_co v co) (aa_step_cz v cz)
      (max mx (max (aa_step_co v co) (aa_step_cz v cz)))

/-- Rule-3 loop of `ll_validate_access_address` (`ble_ll_missing.c` lines
639-651): count transitions between adjacent bits, shifting `temp` right
and carrying the previous bit. -/
def aa_trans_loop (temp : Nat) : Nat → Nat → Nat → Nat
  | 0, _, t => t
  | n + 1, prev, t =>
    aa_trans_loop (temp >>> 1) n (temp &&& 1)
      (if (temp &&& 1) ≠ prev then t + 1 else t)

/-- Rule-4 loop of `ll_validate_access_address` (`ble_ll_missing.c` lines
657-666): count transitions among bits 26..31, indexing the word
directly. -/
def aa_msb_loop (aa : Nat) : Nat → Nat → Nat → Nat → Nat
  | 0, _, _, t => t
  | n + 1, i, prev, t =>
    aa_msb_loop aa n (i + 1) ((aa >>> i) &&& 1)
      (if ((aa >>> i) &&& 1) ≠ prev then t + 1 else t)

/-- `ll_validate_access_address` from `ble_ll_missing.c` lines 603-673:
the four BLE access-address validity checks. -/
def ll_validate_access_address (aa : Nat) : Bool :=
  if aa = 0x8E89BED6 then false
  else if aa_run_loop aa 32 0 0 0 = false then false
  else if aa_trans_loop (aa >>> 1) 31 (aa &&& 1) 0 < 3 then false
  else if aa_msb_loop aa 5 27 ((aa >>> 26) &&& 1) 0 < 2 then false
  else true

/-- `ble_ll_get_random` from `ble_ll.c` lines 622-631: one step of the
8-bit LFSR; returns the drawn byte together with the new LFSR state (the
function returns the updated state itself). -/
def ble_ll_get_random (s : Nat) : Nat × Nat :=
  let bit := (s ^^^ (s >>> 2) ^^^ (s >>> 3) ^^^ (s >>> 5)) &&& 1
  let s2 := ((s >>> 1) ||| (bit <<< 7)) &&& 0xFF
  (s2, s2)

/-- `ble_ll_generate_access_address` from `ble_ll.c` lines 584-602: draw
four LFSR bytes into a 32-bit candidate and retry until
`ll_validate_access_address` accepts. The C loop is unbounded; it is
embedded with explicit fuel and returns `none` when the fuel runs out,
otherwise the accepted address and the final LFSR state. -/
def ble_ll_generate_access_address : Nat → Nat → Option (Nat × Nat)
  | 0, _ => none
  | fuel + 1, s =>
    let r1 := ble_ll_get_random s
    let r2 := ble_ll_get_random r1.2
    let r3 := ble_ll_get_random r2.2
    let r4 := ble_ll_get_random r3.2
    let aa := (r1.1 <<< 24) ||| (r2.1 <<< 16) ||| (r3.1 <<< 8) ||| r4.1
    if ll_validate_access_address aa then some (aa, r4.2)
    else ble_ll_generate_access_address fuel r4.2

/-- Rule 2 as stated: some run of 7 identical consecutive bits exists
inside the 32-bit word (every run of length at least 7 contains such a
window). -/
def aa_has_run7 (aa : Nat) : Prop :=
  ∃ i, i < 26 ∧ ∀ j, j < 7 → aaBit aa (i + j) = aaBit aa i

instance (aa : Nat) : Decidable (aa_has_run7 aa) := by
  unfold aa_has_run7
  infer_instance

/-- Number of bit transitions among the `k + 1` bits `i .. i + k` of a
word: the count of positions `j` in `[i + 1, i + k]` whose bit differs
from the bit below it. -/
def trans_count_from (aa i : Nat) : Nat → Nat
  | 0 => 0
  | k + 1 =>
    (if aaBit aa (i + 1) ≠ aaBit aa i then 1 else 0) + trans_count_from aa (i + 1) k

/-- Outcome of the Master RX window of a connection event: either no valid
packet arrived within the 2 ms poll (RX timeout or CRC failure, since the
radio only raises RX_DONE for CRC-clean packets), or a packet whose bytes
were read into the RX buffer. -/
inductive RxOutcome where
  | timeout
  | done (bytes : List Nat)

/-- The `ble_data_pdu_t` bit-field view (from `ble_defs.h`) of a byte
buffer: LLID in bits 0-1 of byte 0, NESN bit 2, SN bit 3, MD bit 4,
length in byte 1, payload from byte 2. -/
structure DataPdu where
  llid : Nat
  nesn : Nat
  sn : Nat
  md : Nat
  length : Nat
  payload : List Nat
deriving DecidableEq

/-- Read a buffer through the `ble_data_pdu_t` overlay. -/
def parse_data_pdu (buf : List Nat) : DataPdu :=
  { llid := buf.getD 0 0 &&& 0x03
    nesn := (buf.getD 0 0 >>> 2) &&& 1
    sn := (buf.getD 0 0 >>> 3) &&& 1
    md := (buf.getD 0 0 >>> 4) &&& 1
    length := buf.getD 1 0
    payload := buf.drop 2 }

/-- Write the 2-bit LLID field of header byte 0 (`tx_pdu->llid = v`). -/
def set_llid (b v : Nat) : Nat := (b &&& 0xFC) ||| (v &&& 0x03)

/-- Write a 1-bit field of header byte 0 at position `pos`
(`tx_pdu->nesn = v` and friends truncate the value to one bit). -/
def set_hdr_bit (b pos v : Nat) : Nat :=
  (b &&& (0xFF ^^^ (1 <<< pos))) ||| ((v &&& 1) <<< pos)

/-- The Master TX block of `ll_handle_connection_event` (`ble_ll.c` lines
332-369): a PDU is transmitted only when `tx_pending` is set or this is
connection event 0. The header is written in place into `tx_buffer`
(empty-PDU LLID/length first when nothing is pending, then NESN, SN and
MD), and `length + 2` bytes are handed to the radio. Returns the updated
context and the transmitted bytes, `none` when nothing is sent. -/
def ll_event_tx (ctx : ConnCtx) : ConnCtx × Option (List Nat) :=
  if ctx.tx_pending || ctx.event_counter == 0 then
    let b0a := ctx.tx_buffer.getD 0 0
    let b0b := if ctx.tx_pending then b0a else set_llid b0a 0x01
    let b1 := if ctx.tx_pending then ctx.tx_buffer.getD 1 0 else 0
    let b0c := set_hdr_bit b0b 2 ctx.next_expected_seq_num
    let b0d := set_hdr_bit b0c 3 ctx.tx_seq_num
    let b0 := set_hdr_bit b0d 4 (if ctx.more_data then 1 else 0)
    let buf := (ctx.tx_buffer.set 0 b0).set 1 b1
    ({ ctx with tx_buffer := buf }, some (buf.take (b1 + 2)))
  else (ctx, none)

/-- Result of the RX-processing block: updated context, payload handed to
`on_data_received` (if any), reason handed to `on_disconnected` (if any),
and whether the C code executed `return` (cutting the event short). -/
structure RxProc where
  ctx : ConnCtx
  delivered : Option (List Nat)
  disconnected : Option Nat
  early : Bool

/-- The acknowledgement and MD steps closing the RX block (`ble_ll.c`
lines 437-445): when the received NESN differs from `tx_seq_num` the peer
acknowledged our data, so toggle `tx_seq_num` and clear `tx_pending`;
then record the MD bit. -/
def ll_ack_md (ctx : ConnCtx) (p : DataPdu) (delivered : Option (List Nat)) : RxProc :=
  let ctx2 :=
    if p.nesn ≠ ctx.tx_seq_num then
      { ctx with tx_seq_num := ctx.tx_seq_num ^^^ 1, tx_pending := false }
    else ctx
  { ctx := { ctx2 with more_data := p.md != 0 }
    delivered := delivered
    disconnected := none
    early := false }

/-- The Master RX block of `ll_handle_connection_event` (`ble_ll.c` lines
374-454). On no valid reception, the CRC-error counters are incremented.
On reception, the bytes land at the front of `rx_buffer`,
`consecutive_crc_errors` resets, and the PDU is processed: a new sequence
number toggles `next_expected_seq_num`; an L2CAP PDU is delivered above
(payload after the 4-byte L2CAP header, length `length - 4` as computed
in 16-bit arithmetic); a control PDU dispatches on its opcode, where
LL_TERMINATE_IND (0x02) moves to Idle and returns immediately,
LL_FEATURE_REQ (0x08) queues an 11-byte FEATURE_RSP, and
LL_VERSION_IND (0x0C) and all other opcodes do nothing; finally the
acknowledgement and MD steps run. -/
def ll_event_rx (ctx : ConnCtx) : RxOutcome → RxProc
  | RxOutcome.timeout =>
    { ctx := { ctx with
        consecutive_crc_errors := ctx.consecutive_crc_errors + 1
        total_crc_errors := ctx.total_crc_errors + 1 }
      delivered := none
      disconnected := none
      early := false }
  | RxOutcome.done bytes =>
    let rxbuf := write_front ctx.rx_buffer bytes
    let ctx0 := { ctx with rx_buffer := rxbuf, consecutive_crc_errors := 0 }
    let p := parse_data_pdu rxbuf
    if p.sn = ctx0.next_expected_seq_num then
      let ctx1 := { ctx0 with
        next_expected_seq_num := ctx0.next_expected_seq_num ^^^ 1 }
      if 0 < p.length then
        if p.llid = 2 then
          ll_ack_md ctx1 p
            (some ((p.payload.drop 4).take ((p.length + 65532) % 65536)))
        else if p.llid = 3 then
          if p.payload.getD 0 0 = 2 then
            { ctx := { ctx1 with conn_state := ConnState.idle }
              delivered := none
              disconnected := some (p.payload.getD 1 0)
              early := true }
          else if p.payload.getD 0 0 = 0x0C then
            ll_ack_md ctx1 p none
          else if p.payload.getD 0 0 = 8 then
            ll_ack_md { ctx1 with
              tx_buffer := write_front ctx1.tx_buffer
                [0x03, 0x09, 0x09, 0, 0, 0, 0, 0, 0, 0, 0]
              tx_length := 11
              tx_pending := true } p none
          else
            ll_ack_md ctx1 p none
        else
          ll_ack_md ctx1 p none
      else
        ll_ack_md ctx1 p none
    else
      ll_ack_md ctx0 p none

/-- The event bookkeeping closing `ll_handle_connection_event` (`ble_ll.c`
lines 456-467): advance the event counter and the anchor point, then drop
the connection with reason 0x08 when more than 6 consecutive CRC errors
have accumulated. -/
def ll_event_tail (ctx : ConnCtx) : ConnCtx × Option Nat :=
  let ctx2 := { ctx with
    event_counter := ctx.event_counter + 1
    anchor_point := ctx.anchor_point + ctx.conn_interval }
  if 6 < ctx2.consecutive_crc_errors then
    ({ ctx2 with conn_state := ConnState.idle }, some 0x08)
  else (ctx2, none)

/-- Everything observable about one connection event: the final context,
the transmitted bytes (if any), the payload delivered to
`on_data_received` (if any), and the reason passed to `on_disconnected`
(if any). -/
structure EventResult where
  ctx : ConnCtx
  tx : Option (List Nat)
  delivered : Option (List Nat)
  disconnected : Option Nat
deriving DecidableEq

/-- `ll_handle_connection_event` from `ble_ll.c` lines 317-468: select the
next data channel, run the Master TX block, run the Master RX block, and
unless the RX block returned early (LL_TERMINATE_IND), run the event
bookkeeping. -/
def ll_handle_connection_event (ctx : ConnCtx) (rx : RxOutcome) : EventResult :=
  let sel := ble_ll_calculate_next_channel ctx
  let t := ll_event_tx sel.2
  let r := ll_event_rx t.1 rx
  if r.early then
    { ctx := r.ctx, tx := t.2, delivered := r.delivered, disconnected := r.disconnected }
  else
    let fin := ll_event_tail r.ctx
    { ctx := fin.1, tx := t.2, delivered := r.delivered, disconnected := fin.2 }

/-- Connected context at event 1 with nothing pending; used for claims C2
and C7. -/
def ctx_evt1 : ConnCtx := { ctx_ex with event_counter := 1 }

/-- Connected context at event 3 with a PDU pending and a short supervision
timeout; used for claims C1 and C7. -/
def ctx_pend : ConnCtx :=
  { ctx_ex with event_counter := 3, tx_pending := true, supervision_timeout := 1 }

/-- Whether the received PDU takes the early-return LL_TERMINATE_IND path:
it is newly sequenced, non-empty, a control PDU, and carries opcode 0x02. -/
def is_new_terminate (ctx : ConnCtx) (p : DataPdu) : Prop :=
  p.sn = ctx.next_expected_seq_num ∧ 0 < p.length ∧ p.llid = 3 ∧ p.payload.getD 0 0 = 2

instance (ctx : ConnCtx) (p : DataPdu) : Decidable (is_new_terminate ctx p) := by
  unfold is_new_terminate
  infer_instance

/-- The context after channel selection and the TX block, entering the RX
block of a connection event. -/
def ll_event_mid (ctx : ConnCtx) : ConnCtx :=
  (ll_event_tx (ble_ll_calculate_next_channel ctx).2).1

/-- Connected context that has already seen 6 consecutive failed events. -/
def ctx_crc6 : ConnCtx := { ctx_ex with consecutive_crc_errors := 6, event_counter := 2 }

/-- `ble_ll_send_data` from `ble_ll.c` lines 281-312, with `len` equal to
the length of `data`: argument checks, then the LL header (LLID=2, length
`len + 4`), the 4-byte L2CAP header (length `len`, CID 0x0004) and the
payload are written into the 255-byte `tx_buffer`. Buffer writes go
through `mem_write`/`mem_copy`, so a write past the end of the array
(undefined behaviour in C) yields `none`. -/
def ble_ll_send_data (ctx : ConnCtx) (data : List Nat) : Option (BleStatus × ConnCtx) :=
  if data.length = 0 || data.length > 251 then some (BleStatus.invalidParams, ctx)
  else if ctx.conn_state ≠ ConnState.connected then some (BleStatus.notConnected, ctx)
  else if ctx.tx_pending then some (BleStatus.busy, ctx)
  else do
    let b1 ← mem_write ctx.tx_buffer 0 0x02
    let b2 ← mem_write b1 1 ((data.length + 4) &&& 0xFF)
    let b3 ← mem_write b2 2 (data.length &&& 0xFF)
    let b4 ← mem_write b3 3 ((data.length >>> 8) &&& 0xFF)
    let b5 ← mem_write b4 4 (0x0004 &&& 0xFF)
    let b6 ← mem_write b5 5 ((0x0004 >>> 8) &&& 0xFF)
    let b7 ← mem_copy b6 6 data
    some (BleStatus.ok,
      { ctx with tx_buffer := b7, tx_length := data.length + 6, tx_pending := true })

/-- The channel-to-frequency table `channel_freq_table` from `ble_ll.c`
lines 33-42, transcribed verbatim: a uniform 2 MHz ladder from 2402 MHz
at index 0 to 2480 MHz at index 39. -/
def channel_freq_table : List Nat := [
  2402000000, 2404000000, 2406000000, 2408000000, 2410000000,
  2412000000, 2414000000, 2416000000, 2418000000, 2420000000,
  2422000000, 2424000000, 2426000000, 2428000000, 2430000000,
  2432000000, 2434000000, 2436000000, 2438000000, 2440000000,
  2442000000, 2444000000, 2446000000, 2448000000, 2450000000,
  2452000000, 2454000000, 2456000000, 2458000000, 2460000000,
  2462000000, 2464000000, 2466000000, 2468000000, 2470000000,
  2472000000, 2474000000, 2476000000, 2478000000, 2480000000]

/-- `ble_ll_get_frequency` from `ble_ll_missing.c` lines 680-697: linear
2 MHz ladder for data channels 0-36 and the distinct advertising
frequencies for channels 37-39. -/
def ble_ll_get_frequency (channel : Nat) : Nat :=
  if channel ≤ 39 then
    if channel ≤ 36 then 2402000000 + channel * 2000000
    else if channel = 37 then 2402000000
    else if channel = 38 then 2426000000
    else if channel = 39 then 2480000000
    else 2402000000
  else 2402000000

/-- The radio programming performed when scanning starts. -/
structure ScanRadioProg where
  rf_freq : Nat
  whitening_seed : Nat
  crc_seed : Nat
  sync_word : List Nat
deriving DecidableEq

/-- `ble_ll_start_scanning` from `ble_ll.c` lines 128-176, reduced to its
state transition and the radio programming it performs: from Idle it
enters Scanning and programs frequency `channel_freq_table[37]`,
whitening seed `37 | 0x40`, the advertising CRC seed 0x555555 and the
advertising access address as sync word. -/
def ble_ll_start_scanning (ctx : ConnCtx) : BleStatus × ConnCtx × Option ScanRadioProg :=
  if ctx.conn_state ≠ ConnState.idle then (BleStatus.busy, ctx, none)
  else (BleStatus.ok, { ctx with conn_state := ConnState.scanning },
    some { rf_freq := channel_freq_table.getD 37 0
           whitening_seed := 37 ||| 0x40
           crc_seed := 0x555555
           sync_word := [0xD6, 0xBE, 0x89, 0x8E] })

/-- The GATT client context `gatt_client_context_t` from `ble_gatt.h`,
restricted to the fields the embedded functions read or write
(`response_buffer[ATT_MTU_MAX]` is a 247-byte list). -/
structure GattCtx where
  mtu : Nat
  pending_op : Nat
  pending_handle : Nat
  response_buffer : List Nat
  response_length : Nat
  response_received : Bool
deriving DecidableEq

/-- Result of `ble_gatt_handle_rx_data`: updated GATT and LL contexts,
plus the `(handle, value)` pair handed to `gatt_process_notification`
when a notification or indication arrived. -/
structure GattRxResult where
  gatt : GattCtx
  ll : ConnCtx
  notified : Option (Nat × List Nat)
deriving DecidableEq

/-- `ble_gatt_handle_rx_data` from `ble_gatt.c` lines 317-384: dispatch on
the ATT opcode. ATT_ERROR_RSP (0x01) records the opcode and raises the
response flag; ATT_EXCHANGE_MTU_RSP (0x03) stores the server MTU, capping
it at ATT_MTU_MAX = 247, and raises the flag; the read/write response
opcodes copy the PDU into the response buffer and raise the flag;
ATT_HANDLE_VALUE_NTF (0x1B) forwards the notification;
ATT_HANDLE_VALUE_IND (0x1D) sends an ATT_HANDLE_VALUE_CFM byte through
`ble_ll_send_data` and forwards the indication; anything else is
ignored. The C code ignores the send-status of the confirmation, so an
out-of-bounds send (impossible for the 255-byte buffer) would leave the
LL context unchanged here. -/
def ble_gatt_handle_rx_data (g : GattCtx) (ll : ConnCtx) (data : List Nat) : GattRxResult :=
  if data.length = 0 then ⟨g, ll, none⟩
  else if data.getD 0 0 = 0x01 then
    let g2 := { g with
      response_buffer := g.response_buffer.set 0 (data.getD 0 0)
      response_length := data.length
      response_received := true }
    ⟨g2, ll, none⟩
  else if data.getD 0 0 = 0x03 then
    let m := (data.getD 1 0 ||| (data.getD 2 0 <<< 8)) &&& 0xFFFF
    let g2 := { g with
      mtu := if 247 < m then 247 else m
      response_received := true }
    ⟨g2, ll, none⟩
  else if data.getD 0 0 = 0x0B ∨ data.getD 0 0 = 0x0D ∨ data.getD 0 0 = 0x09 ∨
      data.getD 0 0 = 0x11 ∨ data.getD 0 0 = 0x13 then
    let g2 := { g with
      response_buffer := write_front g.response_buffer data
      response_length := data.length
      response_received := true }
    ⟨g2, ll, none⟩
  else if data.getD 0 0 = 0x1B then
    ⟨g, ll, some (data.getD 1 0 ||| (data.getD 2 0 <<< 8),
      (data.drop 3).take (data.length - 3))⟩
  else if data.getD 0 0 = 0x1D then
    let ll2 := match ble_ll_send_data ll [0x1E] with
      | some r => r.2
      | none => ll
    ⟨g, ll2, some (data.getD 1 0 ||| (data.getD 2 0 <<< 8),
      (data.drop 3).take (data.length - 3))⟩
  else ⟨g, ll, none⟩

/-- The `att_msg_t` request structure from `ble_gatt.h`. The C union
overlays `read.handle` and `write.handle` on the same bytes, so the
builders below set both fields to the same handle. -/
structure AttMsg where
  opcode : Nat
  read_handle : Nat
  write_handle : Nat
  starting_handle : Nat
  ending_handle : Nat
  uuid16 : Nat
  write_value : List Nat
deriving DecidableEq

/-- `gatt_build_read_request` from `ble_gatt.c` lines 505-509. -/
def gatt_build_read_request (handle : Nat) : AttMsg :=
  { opcode := 0x0A, read_handle := handle, write_handle := handle
    starting_handle := 0, ending_handle := 0, uuid16 := 0, write_value := [] }

/-- `gatt_build_write_request` from `ble_gatt.c` lines 492-498 (with
`value` the copied bytes). -/
def gatt_build_write_request (handle : Nat) (value : List Nat) : AttMsg :=
  { opcode := 0x12, read_handle := handle, write_handle := handle
    starting_handle := 0, ending_handle := 0, uuid16 := 0, write_value := value }

/-- `gatt_send_att_request` from `ble_gatt.c` lines 395-444: clear the
previous response state, encode the request PDU (READ_BY_TYPE 0x08,
READ 0x0A or WRITE 0x12; a write always copies `mtu - 3` value bytes),
record the pending opcode and handle, and hand the PDU to
`ble_ll_send_data`. Note that no busy check of its own is performed
here. -/
def gatt_send_att_request (g : GattCtx) (ll : ConnCtx) (req : AttMsg) :
    Option (BleStatus × GattCtx × ConnCtx) :=
  let g1 := { g with response_received := false, response_length := 0 }
  if req.opcode = 0x08 then
    let pdu := [req.opcode, req.starting_handle &&& 0xFF, (req.starting_handle >>> 8) &&& 0xFF,
      req.ending_handle &&& 0xFF, (req.ending_handle >>> 8) &&& 0xFF,
      req.uuid16 &&& 0xFF, (req.uuid16 >>> 8) &&& 0xFF]
    let g2 := { g1 with pending_op := req.opcode, pending_handle := req.read_handle }
    (ble_ll_send_data ll pdu).map (fun r => (r.1, g2, r.2))
  else if req.opcode = 0x0A then
    let pdu := [req.opcode, req.read_handle &&& 0xFF, (req.read_handle >>> 8) &&& 0xFF]
    let g2 := { g1 with pending_op := req.opcode, pending_handle := req.read_handle }
    (ble_ll_send_data ll pdu).map (fun r => (r.1, g2, r.2))
  else if req.opcode = 0x12 then
    let pdu := [req.opcode, req.write_handle &&& 0xFF, (req.write_handle >>> 8) &&& 0xFF] ++
      req.write_value.take (g.mtu - 3)
    let g2 := { g1 with pending_op := req.opcode, pending_handle := req.write_handle }
    (ble_ll_send_data ll pdu).map (fun r => (r.1, g2, r.2))
  else some (BleStatus.invalidParams, g1, ll)

/-- The MTU value stored by the ATT_EXCHANGE_MTU_RSP case: the 16-bit
server value capped above at ATT_MTU_MAX = 247 (and at nothing below). -/
def mtu_from_rsp (data : List Nat) : Nat :=
  let m := (data.getD 1 0 ||| (data.getD 2 0 <<< 8)) &&& 0xFFFF
  if 247 < m then 247 else m

/-- A fresh GATT client context as set up by `ble_gatt_init`: default MTU
23, no pending response. -/
def gatt_ex : GattCtx :=
  { mtu := 23, pending_op := 0, pending_handle := 0
    response_buffer := List.replicate 247 0, response_length := 0
    response_received := false }

/-- The first ATT request of the claim C10 scenario: a read of handle
0x0003 from a fresh connected context. -/
def gatt_req_read3 : AttMsg := gatt_build_read_request 0x0003

/-- State after submitting the first ATT request. -/
def c10_s1 : Option (BleStatus × GattCtx × ConnCtx) :=
  gatt_send_att_request gatt_ex ctx_ex gatt_req_read3

/-- GATT context after the first request (response still outstanding). -/
def c10_g1 : GattCtx := (c10_s1.map (fun r => r.2.1)).getD gatt_ex

/-- LL context after the first request (PDU queued, `tx_pending`). -/
def c10_ll1 : ConnCtx := (c10_s1.map (fun r => r.2.2)).getD ctx_ex

/-- LL context after one connection event in which the peer link-layer
acknowledges the request PDU with an empty PDU (0x05 0x00: NESN=1, SN=0,
length 0) without sending any ATT response. -/
def c10_ll2 : ConnCtx :=
  (ll_handle_connection_event c10_ll1 (RxOutcome.done [0x05, 0x00])).ctx

/-- Claim C4: false on the code. The table-driven `ble_ll_calculate_crc24`
does not agree with the bitwise reference BLE CRC-24: already on the
one-byte input 0x00 with the advertising initial value 0x555555 the code
returns 0x244EC0 while the bitwise reference over polynomial 0x100065B
returns 0x714E95. (The code combines a byte-reflected lookup table with a
left-shifting, high-byte-indexed driver loop, and table entries 190-255
are additionally corrupted.) -/
theorem claim_C4_crc24_mismatch :
    ble_ll_calculate_crc24 [0x00] 0x555555 = 0x244EC0 ∧
    crc24_bitwise_ref [0x00] 0x555555 = 0x714E95 ∧
    ble_ll_calculate_crc24 [0x00] 0x555555 ≠ crc24_bitwise_ref [0x00] 0x555555 := by
  refine ⟨by decide, by decide, by decide⟩

lemma find_nth_used_mem (map : List Nat) :
    ∀ (l : List Nat) (target count : Nat),
      count ≤ target → target < count + l.countP (channel_map_bit map) →
      channel_map_bit map (find_nth_used map target l count) = true := by
  intro l
  induction l with
  | nil =>
      intro target count h1 h2
      rw [List.countP_nil] at h2
      omega
  | cons ch rest ih =>
      intro target count h1 h2
      by_cases hb : channel_map_bit map ch
      · by_cases he : count = target
        · simp [find_nth_used, hb, he]
        · have h2' : target < (count + 1) + rest.countP (channel_map_bit map) := by
            have := List.countP_cons_of_pos (channel_map_bit map) rest hb
            omega
          have h1' : count + 1 ≤ target := by omega
          simpa [find_nth_used, hb, he] using ih target (count + 1) h1' h2'
      · have h2' : target < count + rest.countP (channel_map_bit map) := by
          have := List.countP_cons_of_neg (channel_map_bit map) rest
            (by simpa using hb)
          omega
        simpa [find_nth_used, hb] using ih target count h1 h2'

/-- Claim C3: channel selection algorithm #1. Under the stated hypotheses
(`num_used_channels` equals the popcount of the channel map and is at
least 1), `ble_ll_calculate_next_channel` computes
`unmapped = (last_unmapped_channel + hop_increment) mod 37`, stores it in
`last_unmapped_channel` also when remapping occurs, returns `unmapped`
directly when its channel-map bit is set, always returns a channel whose
bit is set in the channel map, and with only channel 0 used every call
returns channel 0. -/
theorem claim_C3_next_channel (ctx : ConnCtx)
    (hpop : ctx.num_used_channels = popcount37 ctx.channel_map)
    (hge : 1 ≤ ctx.num_used_channels) :
    ((ble_ll_calculate_next_channel ctx).2.last_unmapped_channel =
        (ctx.last_unmapped_channel + ctx.hop_increment) % 37) ∧
    (channel_map_bit ctx.channel_map
        ((ctx.last_unmapped_channel + ctx.hop_increment) % 37) = true →
      (ble_ll_calculate_next_channel ctx).1 =
        (ctx.last_unmapped_channel + ctx.hop_increment) % 37) ∧
    (channel_map_bit ctx.channel_map (ble_ll_calculate_next_channel ctx).1 = true) ∧
    (ctx.channel_map = [1, 0, 0, 0, 0] →
      (ble_ll_calculate_next_channel ctx).1 = 0) := by
  set u := (ctx.last_unmapped_channel + ctx.hop_increment) % 37 with hu
  refine ⟨?_, ?_, ?_, ?_⟩
  · by_cases hb : channel_map_bit ctx.channel_map u
    · simp [ble_ll_calculate_next_channel, ← hu, hb]
    · simp [ble_ll_calculate_next_channel, ← hu, hb]
  · intro hb
    simp [ble_ll_calculate_next_channel, ← hu, hb]
  · by_cases hb : channel_map_bit ctx.channel_map u
    · simp [ble_ll_calculate_next_channel, ← hu, hb]
    · have hlt : u % ctx.num_used_channels < popcount37 ctx.channel_map := by
        rw [← hpop]
        exact Nat.mod_lt _ (by omega)
      have := find_nth_used_mem ctx.channel_map (List.range 37)
        (u % ctx.num_used_channels) 0 (Nat.zero_le _) (by simpa [popcount37] using hlt)
      simpa [ble_ll_calculate_next_channel, ← hu, hb] using this
  · intro hmap
    have hu37 : u < 37 := Nat.mod_lt _ (by norm_num)
    by_cases hz : u = 0
    · have hb0 : channel_map_bit ctx.channel_map 0 = true := by rw [hmap]; decide
      simp [ble_ll_calculate_next_channel, ← hu, hz, hb0]
    · have hball : ∀ v, v < 37 → ¬v = 0 → channel_map_bit [1, 0, 0, 0, 0] v = false := by
        decide
      have hb : channel_map_bit ctx.channel_map u = false := by
        rw [hmap]; exact hball u hu37 hz
      have hone : popcount37 [1, 0, 0, 0, 0] = 1 := by decide
      have hnum : ctx.num_used_channels = 1 := by rw [hpop, hmap, hone]
      have hfind : find_nth_used ctx.channel_map 0 (List.range 37) 0 = 0 := by
        rw [hmap]; decide
      simp [ble_ll_calculate_next_channel, ← hu, hb, hnum, hfind, Nat.mod_one]

/-- Witness for claim C3 at the concrete context `ctx_ex` (all 37 channels
used, hop increment 7): the hypotheses hold and the selected channel is 7,
whose channel-map bit is set. -/
theorem claim_C3_next_channel_witness :
    (ctx_ex.num_used_channels = popcount37 ctx_ex.channel_map ∧
      1 ≤ ctx_ex.num_used_channels) ∧
    channel_map_bit ctx_ex.channel_map (ble_ll_calculate_next_channel ctx_ex).1 = true := by
  refine ⟨⟨by decide, by decide⟩, ?_⟩
  exact (claim_C3_next_channel ctx_ex (by decide) (by decide)).2.2.1

lemma and_one_cases (v : Nat) : v &&& 1 = 1 ∨ v &&& 1 = 0 := by
  have := Nat.and_one_is_mod v
  omega

lemma aaBit_zero (v : Nat) : aaBit v 0 = v &&& 1 := by
  simp [aaBit]

lemma aaBit_shift_one (v j : Nat) : aaBit (v >>> 1) j = aaBit v (j + 1) := by
  simp [aaBit, ← Nat.shiftRight_add, Nat.add_comm]

lemma run_max_le : ∀ (n v co cz mx : Nat), mx ≤ aa_run_max v n co cz mx := by
  intro n
  induction n with
  | zero =>
      intro v co cz mx
      simp [aa_run_max]
  | succ n ih =>
      intro v co cz mx
      calc mx ≤ max mx (max (aa_step_co v co) (aa_step_cz v cz)) := le_max_left _ _
        _ ≤ aa_run_max (v >>> 1) n (aa_step_co v co) (aa_step_cz v cz)
              (max mx (max (aa_step_co v co) (aa_step_cz v cz))) := ih _ _ _ _
        _ = aa_run_max v (n + 1) co cz mx := rfl

lemma run_loop_eq_decide : ∀ (n v co cz mx : Nat), mx ≤ 6 →
    aa_run_loop v n co cz mx = decide (aa_run_max v n co cz mx ≤ 6) := by
  intro n
  induction n with
  | zero =>
      intro v co cz mx h
      simp [aa_run_loop, aa_run_max, h]
  | succ n ih =>
      intro v co cz mx h
      by_cases hM : 6 < max mx (max (aa_step_co v co) (aa_step_cz v cz))
      · have hge := run_max_le n (v >>> 1) (aa_step_co v co) (aa_step_cz v cz)
          (max mx (max (aa_step_co v co) (aa_step_cz v cz)))
        have hnot : ¬ aa_run_max v (n + 1) co cz mx ≤ 6 := by
          simp only [aa_run_max]
          omega
        simp [aa_run_loop, hM, hnot]
      · have hle : max mx (max (aa_step_co v co) (aa_step_cz v cz)) ≤ 6 := by omega
        have := ih (v >>> 1) (aa_step_co v co) (aa_step_cz v cz)
          (max mx (max (aa_step_co v co) (aa_step_cz v cz))) hle
        simp only [aa_run_loop, aa_run_max, hM, if_false]
        exact this

lemma run_max_ones : ∀ (k n v co cz mx : Nat), k ≤ n →
    (∀ j, j < k → aaBit v j = 1) →
    co + k ≤ aa_run_max v n co cz mx ∨ k = 0 := by
  intro k
  induction k with
  | zero =>
      intro n v co cz mx _ _
      exact Or.inr rfl
  | succ k ih =>
      intro n v co cz mx hkn hbits
      left
      obtain ⟨m, rfl⟩ : ∃ m, n = m + 1 := ⟨n - 1, by omega⟩
      have hb0 : v &&& 1 = 1 := by
        have := hbits 0 (by omega)
        simpa [aaBit_zero] using this
      have hco : aa_step_co v co = co + 1 := by simp [aa_step_co, hb0]
      have hbits2 : ∀ j, j < k → aaBit (v >>> 1) j = 1 := by
        intro j hj
        rw [aaBit_shift_one]
        exact hbits (j + 1) (by omega)
      have heq : aa_run_max v (m + 1) co cz mx =
          aa_run_max (v >>> 1) m (co + 1) (aa_step_cz v cz)
            (max mx (max (co + 1) (aa_step_cz v cz))) := by
        simp only [aa_run_max, hco]
      rw [heq]
      rcases ih m (v >>> 1) (co + 1) (aa_step_cz v cz)
          (max mx (max (co + 1) (aa_step_cz v cz))) (by omega) hbits2 with h | h
      · omega
      · subst h
        have hle := run_max_le m (v >>> 1) (co + 1) (aa_step_cz v cz)
          (max mx (max (co + 1) (aa_step_cz v cz)))
        have : co + 1 ≤ max mx (max (co + 1) (aa_step_cz v cz)) :=
          le_trans (le_max_left _ _) (le_max_right _ _)
        omega

lemma run_max_zeros : ∀ (k n v co cz mx : Nat), k ≤ n →
    (∀ j, j < k → aaBit v j = 0) →
    cz + k ≤ aa_run_max v n co cz mx ∨ k = 0 := by
  intro k
  induction k with
  | zero =>
      intro n v co cz mx _ _
      exact Or.inr rfl
  | succ k ih =>
      intro n v co cz mx hkn hbits
      left
      obtain ⟨m, rfl⟩ : ∃ m, n = m + 1 := ⟨n - 1, by omega⟩
      have hb0 : v &&& 1 = 0 := by
        have := hbits 0 (by omega)
        simpa [aaBit_zero] using this
      have hcz : aa_step_cz v cz = cz + 1 := by simp [aa_step_cz, hb0]
      have hbits2 : ∀ j, j < k → aaBit (v >>> 1) j = 0 := by
        intro j hj
        rw [aaBit_shift_one]
        exact hbits (j + 1) (by omega)
      have heq : aa_run_max v (m + 1) co cz mx =
          aa_run_max (v >>> 1) m (aa_step_co v co) (cz + 1)
            (max mx (max (aa_step_co v co) (cz + 1))) := by
        simp only [aa_run_max, hcz]
      rw [heq]
      rcases ih m (v >>> 1) (aa_step_co v co) (cz + 1)
          (max mx (max (aa_step_co v co) (cz + 1))) (by omega) hbits2 with h | h
      · omega
      · subst h
        have hle := run_max_le m (v >>> 1) (aa_step_co v co) (cz + 1)
          (max mx (max (aa_step_co v co) (cz + 1)))
        have : cz + 1 ≤ max mx (max (aa_step_co v co) (cz + 1)) :=
          le_trans (le_max_right _ _) (le_max_right _ _)
        omega

lemma run_max_window : ∀ (p n v co cz mx : Nat), p + 7 ≤ n →
    (∀ j, j < 7 → aaBit v (p + j) = aaBit v p) →
    7 ≤ aa_run_max v n co cz mx := by
  intro p
  induction p with
  | zero =>
      intro n v co cz mx hn hw
      rcases and_one_cases v with h1 | h0
      · have hbits : ∀ j, j < 7 → aaBit v j = 1 := by
          intro j hj
          have := hw j hj
          rw [Nat.zero_add, aaBit_zero, h1] at this
          exact this
        rcases run_max_ones 7 n v co cz mx (by omega) hbits with h | h
        · omega
        · omega
      · have hbits : ∀ j, j < 7 → aaBit v j = 0 := by
          intro j hj
          have := hw j hj
          rw [Nat.zero_add, aaBit_zero, h0] at this
          exact this
        rcases run_max_zeros 7 n v co cz mx (by omega) hbits with h | h
        · omega
        · omega
  | succ p ih =>
      intro n v co cz mx hn hw
      obtain ⟨m, rfl⟩ : ∃ m, n = m + 1 := ⟨n - 1, by omega⟩
      have hw2 : ∀ j, j < 7 → aaBit (v >>> 1) (p + j) = aaBit (v >>> 1) p := by
        intro j hj
        rw [aaBit_shift_one, aaBit_shift_one]
        have e : p + j + 1 = p + 1 + j := by omega
        rw [e]
        exact hw j hj
      have := ih m (v >>> 1) (aa_step_co v co) (aa_step_cz v cz)
        (max mx (max (aa_step_co v co) (aa_step_cz v cz))) (by omega) hw2
      simpa [aa_run_max] using this

lemma run_max_ge7_cases : ∀ (n v co cz mx : Nat),
    7 ≤ aa_run_max v n co cz mx →
    7 ≤ mx ∨
    (∃ k, 1 ≤ k ∧ k ≤ n ∧ 7 ≤ co + k ∧ ∀ j, j < k → aaBit v j = 1) ∨
    (∃ k, 1 ≤ k ∧ k ≤ n ∧ 7 ≤ cz + k ∧ ∀ j, j < k → aaBit v j = 0) ∨
    (∃ p, p + 7 ≤ n ∧ ∀ j, j < 7 → aaBit v (p + j) = aaBit v p) := by
  intro n
  induction n with
  | zero =>
      intro v co cz mx h
      left
      simpa [aa_run_max] using h
  | succ n ih =>
      intro v co cz mx h
      have h2 : 7 ≤ aa_run_max (v >>> 1) n (aa_step_co v co) (aa_step_cz v cz)
          (max mx (max (aa_step_co v co) (aa_step_cz v cz))) := by
        simpa [aa_run_max] using h
      rcases ih (v >>> 1) _ _ _ h2 with hmx | hones | hzeros | hwin
      · rcases le_max_iff.mp hmx with hx | hx
        · exact Or.inl hx
        · rcases le_max_iff.mp hx with hc | hc
          · rcases and_one_cases v with hb | hb
            · refine Or.inr (Or.inl ⟨1, by omega, by omega, ?_, ?_⟩)
              · have : aa_step_co v co = co + 1 := by simp [aa_step_co, hb]
                omega
              · intro j hj
                have : j = 0 := by omega
                subst this
                rw [aaBit_zero]
                exact hb
            · have : aa_step_co v co = 0 := by simp [aa_step_co, hb]
              omega
          · rcases and_one_cases v with hb | hb
            · have : aa_step_cz v cz = 0 := by simp [aa_step_cz, hb]
              omega
            · refine Or.inr (Or.inr (Or.inl ⟨1, by omega, by omega, ?_, ?_⟩))
              · have : aa_step_cz v cz = cz + 1 := by simp [aa_step_cz, hb]
                omega
              · intro j hj
                have : j = 0 := by omega
                subst this
                rw [aaBit_zero]
                exact hb
      · obtain ⟨k, hk1, hkn, hck, hbits⟩ := hones
        rcases and_one_cases v with hb | hb
        · have hco : aa_step_co v co = co + 1 := by simp [aa_step_co, hb]
          refine Or.inr (Or.inl ⟨k + 1, by omega, by omega, by omega, ?_⟩)
          intro j hj
          cases j with
          | zero =>
              rw [aaBit_zero]
              exact hb
          | succ j =>
              rw [← aaBit_shift_one]
              exact hbits j (by omega)
        · have hco : aa_step_co v co = 0 := by simp [aa_step_co, hb]
          rw [hco] at hck
          refine Or.inr (Or.inr (Or.inr ⟨1, by omega, ?_⟩))
          intro j hj
          have hj1 : aaBit v (1 + j) = 1 := by
            have := hbits j (by omega)
            rw [aaBit_shift_one] at this
            have e : j + 1 = 1 + j := by omega
            rw [← e]
            exact this
          have h10 : aaBit v 1 = 1 := by
            have := hbits 0 (by omega)
            rw [aaBit_shift_one] at this
            simpa using this
          rw [hj1, h10]
      · obtain ⟨k, hk1, hkn, hck, hbits⟩ := hzeros
        rcases and_one_cases v with hb | hb
        · have hcz : aa_step_cz v cz = 0 := by simp [aa_step_cz, hb]
          rw [hcz] at hck
          refine Or.inr (Or.inr (Or.inr ⟨1, by omega, ?_⟩))
          intro j hj
          have hj1 : aaBit v (1 + j) = 0 := by
            have := hbits j (by omega)
            rw [aaBit_shift_one] at this
            have e : j + 1 = 1 + j := by omega
            rw [← e]
            exact this
          have h10 : aaBit v 1 = 0 := by
            have := hbits 0 (by omega)
            rw [aaBit_shift_one] at this
            simpa using this
          rw [hj1, h10]
        · have hcz : aa_step_cz v cz = cz + 1 := by simp [aa_step_cz, hb]
          refine Or.inr (Or.inr (Or.inl ⟨k + 1, by omega, by omega, by omega, ?_⟩))
          intro j hj
          cases j with
          | zero =>
              rw [aaBit_zero]
              exact hb
          | succ j =>
              rw [← aaBit_shift_one]
              exact hbits j (by omega)
      · obtain ⟨p, hpn, hw⟩ := hwin
        refine Or.inr (Or.inr (Or.inr ⟨p + 1, by omega, ?_⟩))
        intro j hj
        have h1 := hw j hj
        rw [aaBit_shift_one, aaBit_shift_one] at h1
        have e : p + 1 + j = p + j + 1 := by omega
        rw [e]
        exact h1

lemma run_loop_iff (aa : Nat) :
    aa_run_loop aa 32 0 0 0 = true ↔ ¬ aa_has_run7 aa := by
  rw [run_loop_eq_decide 32 aa 0 0 0 (by omega)]
  simp only [decide_eq_true_eq]
  constructor
  · intro h hrun
    obtain ⟨i, hi, hw⟩ := hrun
    have h7 := run_max_window i 32 aa 0 0 0 (by omega) hw
    omega
  · intro h
    by_contra h6
    push_neg at h6
    rcases run_max_ge7_cases 32 aa 0 0 0 (by omega) with hx | hones | hzeros | hwin
    · omega
    · obtain ⟨k, hk1, hkn, hck, hbits⟩ := hones
      exact h ⟨0, by omega, fun j hj => by
        rw [Nat.zero_add, hbits j (by omega), hbits 0 (by omega)]⟩
    · obtain ⟨k, hk1, hkn, hck, hbits⟩ := hzeros
      exact h ⟨0, by omega, fun j hj => by
        rw [Nat.zero_add, hbits j (by omega), hbits 0 (by omega)]⟩
    · obtain ⟨p, hpn, hw⟩ := hwin
      exact h ⟨p, by omega, hw⟩

lemma trans_loop_eq (aa : Nat) : ∀ (k i t : Nat),
    aa_trans_loop (aa >>> (i + 1)) k (aaBit aa i) t = t + trans_count_from aa i k := by
  intro k
  induction k with
  | zero =>
      intro i t
      simp [aa_trans_loop, trans_count_from]
  | succ k ih =>
      intro i t
      have hs : (aa >>> (i + 1)) >>> 1 = aa >>> (i + 1 + 1) := by
        rw [← Nat.shiftRight_add]
      have hcur : (aa >>> (i + 1)) &&& 1 = aaBit aa (i + 1) := rfl
      simp only [aa_trans_loop, hs, hcur]
      rw [ih (i + 1)]
      simp only [trans_count_from]
      by_cases hb : aaBit aa (i + 1) ≠ aaBit aa i
      · simp only [if_pos hb]
        omega
      · simp only [if_neg hb]
        omega

lemma msb_loop_eq (aa : Nat) : ∀ (k i t : Nat),
    aa_msb_loop aa k (i + 1) (aaBit aa i) t = t + trans_count_from aa i k := by
  intro k
  induction k with
  | zero =>
      intro i t
      simp [aa_msb_loop, trans_count_from]
  | succ k ih =>
      intro i t
      have hcur : (aa >>> (i + 1)) &&& 1 = aaBit aa (i + 1) := rfl
      simp only [aa_msb_loop, hcur]
      rw [ih (i + 1)]
      simp only [trans_count_from]
      by_cases hb : aaBit aa (i + 1) ≠ aaBit aa i
      · simp only [if_pos hb]
        omega
      · simp only [if_neg hb]
        omega

lemma validate_iff (aa : Nat) :
    ll_validate_access_address aa = true ↔
      (aa ≠ 0x8E89BED6 ∧ ¬ aa_has_run7 aa ∧
        3 ≤ trans_count_from aa 0 31 ∧ 2 ≤ trans_count_from aa 26 5) := by
  have htrans : aa_trans_loop (aa >>> 1) 31 (aa &&& 1) 0 = trans_count_from aa 0 31 := by
    have := trans_loop_eq aa 31 0 0
    simpa [aaBit_zero] using this
  have hmsb : aa_msb_loop aa 5 27 ((aa >>> 26) &&& 1) 0 = trans_count_from aa 26 5 := by
    have h1 := msb_loop_eq aa 5 26 0
    simpa [aaBit] using h1
  unfold ll_validate_access_address
  rw [htrans, hmsb]
  by_cases h1 : aa = 0x8E89BED6
  · simp [h1]
  · by_cases hr : aa_has_run7 aa
    · have hloop : aa_run_loop aa 32 0 0 0 = false := by
        rcases Bool.eq_false_or_eq_true (aa_run_loop aa 32 0 0 0) with h | h
        · exact absurd hr ((run_loop_iff aa).mp h)
        · exact h
      simp [h1, hloop, hr]
    · have hloop : aa_run_loop aa 32 0 0 0 = true := (run_loop_iff aa).mpr hr
      by_cases h3 : trans_count_from aa 0 31 < 3
      · have hn3 : ¬ 3 ≤ trans_count_from aa 0 31 := by omega
        simp [h1, hloop, h3, hr, hn3]
      · by_cases h4 : trans_count_from aa 26 5 < 2
        · have hn4 : ¬ 2 ≤ trans_count_from aa 26 5 := by omega
          simp [h1, hloop, h3, h4, hr, hn4]
        · have e3 : 3 ≤ trans_count_from aa 0 31 := by omega
          have e4 : 2 ≤ trans_count_from aa 26 5 := by omega
          simp [h1, hloop, h3, h4, hr, e3, e4]

lemma gen_valid : ∀ (fuel s : Nat),
    (ble_ll_generate_access_address fuel s).all
      (fun p => ll_validate_access_address p.1) = true := by
  intro fuel
  induction fuel with
  | zero =>
      intro s
      simp [ble_ll_generate_access_address, Option.all]
  | succ fuel ih =>
      intro s
      simp only [ble_ll_generate_access_address]
      split
      · next h =>
          simpa [Option.all] using h
      · exact ih _

/-- Claim C5: access-address generation and validation. Every address the
generator returns passes `ll_validate_access_address`; the validator
accepts exactly the addresses satisfying the four BLE rules (not the
advertising address 0x8E89BED6, no run of 7 identical consecutive bits in
the 32-bit word, at least 3 bit-transitions over the full word, at least 2
transitions among the most-significant 6 bits); and both 0x8E89BED6 and
0xFFFFFFFF are rejected. -/
theorem claim_C5_access_address :
    (∀ fuel s, (ble_ll_generate_access_address fuel s).all
        (fun p => ll_validate_access_address p.1) = true) ∧
    (∀ aa, ll_validate_access_address aa = true ↔
      (aa ≠ 0x8E89BED6 ∧ ¬ aa_has_run7 aa ∧
        3 ≤ trans_count_from aa 0 31 ∧ 2 ≤ trans_count_from aa 26 5)) ∧
    ll_validate_access_address 0x8E89BED6 = false ∧
    ll_validate_access_address 0xFFFFFFFF = false :=
  ⟨gen_valid, validate_iff, by decide, by decide⟩

/-- Claim C1: false on the code as stated. When the received PDU is a new
(SN-matching) LL_TERMINATE_IND control PDU, the handler returns before the
acknowledgement step, so even though its NESN (1) differs from
`tx_seq_num` (0), `tx_seq_num` is not toggled and `tx_pending` is not
cleared. The PDU bytes 0x07 0x02 0x02 0x13 carry LLID=3, NESN=1, SN=0,
length 2, opcode LL_TERMINATE_IND, reason 0x13. -/
theorem claim_C1_terminate_skips_ack :
    (parse_data_pdu (write_front ctx_pend.rx_buffer [0x07, 0x02, 0x02, 0x13])).nesn = 1 ∧
    ctx_pend.tx_seq_num = 0 ∧ ctx_pend.tx_pending = true ∧
    (ll_handle_connection_event ctx_pend (RxOutcome.done [0x07, 0x02, 0x02, 0x13])).ctx.tx_seq_num = 0 ∧
    (ll_handle_connection_event ctx_pend (RxOutcome.done [0x07, 0x02, 0x02, 0x13])).ctx.tx_pending = true ∧
    (ll_handle_connection_event ctx_pend (RxOutcome.done [0x07, 0x02, 0x02, 0x13])).disconnected = some 0x13 := by
  refine ⟨by decide, by decide, by decide, by decide, by decide, by decide⟩

/-- Claim C2: false on the code. At any connection event after the first
with no TX pending, the Master transmits nothing at all: the whole TX
block is guarded by `tx_pending || event_counter == 0`. At event 1 with
`tx_pending = false` the transmitted PDU is `none`, while at event 0 the
same idle context does transmit the empty PDU 0x01 0x00 (LLID=01,
length=0, NESN=SN=MD=0). -/
theorem claim_C2_tx_only_first_or_pending :
    ctx_evt1.tx_pending = false ∧ ctx_evt1.event_counter = 1 ∧
    (ll_handle_connection_event ctx_evt1 RxOutcome.timeout).tx = none ∧
    ctx_ex.tx_pending = false ∧ ctx_ex.event_counter = 0 ∧
    (ll_handle_connection_event ctx_ex RxOutcome.timeout).tx = some [0x01, 0x00] := by
  refine ⟨by decide, by decide, by decide, by decide, by decide, by decide⟩

/-- Claim C7: false on the code as stated. The handler has no time-based
supervision check: with `supervision_timeout = 1` and a 50000 microsecond
connection interval, an event with no valid reception advances the anchor
point by a full interval (far beyond the supervision timeout in any of
its units) yet the connection stays Connected and no disconnect callback
fires, because only `consecutive_crc_errors > 6` is checked (here the
counter has only reached 1). -/
theorem claim_C7_no_time_based_supervision :
    ctx_pend.supervision_timeout = 1 ∧ ctx_pend.conn_interval = 50000 ∧
    ctx_pend.consecutive_crc_errors = 0 ∧
    (ll_handle_connection_event ctx_pend RxOutcome.timeout).ctx.anchor_point =
      ctx_pend.anchor_point + 50000 ∧
    (ll_handle_connection_event ctx_pend RxOutcome.timeout).ctx.consecutive_crc_errors = 1 ∧
    (ll_handle_connection_event ctx_pend RxOutcome.timeout).ctx.conn_state = ConnState.connected ∧
    (ll_handle_connection_event ctx_pend RxOutcome.timeout).disconnected = none := by
  refine ⟨by decide, by decide, by decide, by decide, by decide, by decide, by decide⟩

lemma next_channel_ctx (ctx : ConnCtx) :
    (ble_ll_calculate_next_channel ctx).2 =
      { ctx with last_unmapped_channel :=
          (ctx.last_unmapped_channel + ctx.hop_increment) % 37 } := by
  by_cases h : channel_map_bit ctx.channel_map
      ((ctx.last_unmapped_channel + ctx.hop_increment) % 37)
  · simp [ble_ll_calculate_next_channel, h]
  · simp [ble_ll_calculate_next_channel, h]

lemma tx_fields (ctx : ConnCtx) :
    (ll_event_tx ctx).1.conn_state = ctx.conn_state ∧
    (ll_event_tx ctx).1.rx_buffer = ctx.rx_buffer ∧
    (ll_event_tx ctx).1.next_expected_seq_num = ctx.next_expected_seq_num ∧
    (ll_event_tx ctx).1.tx_seq_num = ctx.tx_seq_num ∧
    (ll_event_tx ctx).1.tx_pending = ctx.tx_pending ∧
    (ll_event_tx ctx).1.consecutive_crc_errors = ctx.consecutive_crc_errors ∧
    (ll_event_tx ctx).1.anchor_point = ctx.anchor_point ∧
    (ll_event_tx ctx).1.conn_interval = ctx.conn_interval ∧
    (ll_event_tx ctx).1.event_counter = ctx.event_counter ∧
    (ll_event_tx ctx).1.more_data = ctx.more_data := by
  by_cases h : (ctx.tx_pending || ctx.event_counter == 0) = true
  · simp [ll_event_tx, h]
  · simp [ll_event_tx, h]

lemma mid_fields (ctx : ConnCtx) :
    (ll_event_mid ctx).conn_state = ctx.conn_state ∧
    (ll_event_mid ctx).rx_buffer = ctx.rx_buffer ∧
    (ll_event_mid ctx).next_expected_seq_num = ctx.next_expected_seq_num ∧
    (ll_event_mid ctx).tx_seq_num = ctx.tx_seq_num ∧
    (ll_event_mid ctx).tx_pending = ctx.tx_pending ∧
    (ll_event_mid ctx).consecutive_crc_errors = ctx.consecutive_crc_errors ∧
    (ll_event_mid ctx).anchor_point = ctx.anchor_point ∧
    (ll_event_mid ctx).conn_interval = ctx.conn_interval ∧
    (ll_event_mid ctx).event_counter = ctx.event_counter ∧
    (ll_event_mid ctx).more_data = ctx.more_data := by
  unfold ll_event_mid
  rw [next_channel_ctx]
  exact tx_fields _

lemma handle_eq (ctx : ConnCtx) (rx : RxOutcome) :
    ll_handle_connection_event ctx rx =
      (if (ll_event_rx (ll_event_mid ctx) rx).early then
        { ctx := (ll_event_rx (ll_event_mid ctx) rx).ctx
          tx := (ll_event_tx (ble_ll_calculate_next_channel ctx).2).2
          delivered := (ll_event_rx (ll_event_mid ctx) rx).delivered
          disconnected := (ll_event_rx (ll_event_mid ctx) rx).disconnected }
      else
        { ctx := (ll_event_tail (ll_event_rx (ll_event_mid ctx) rx).ctx).1
          tx := (ll_event_tx (ble_ll_calculate_next_channel ctx).2).2
          delivered := (ll_event_rx (ll_event_mid ctx) rx).delivered
          disconnected := (ll_event_tail (ll_event_rx (ll_event_mid ctx) rx).ctx).2 }) := rfl

lemma tail_seq (c : ConnCtx) : (ll_event_tail c).1.tx_seq_num = c.tx_seq_num := by
  by_cases h : 6 < c.consecutive_crc_errors
  · simp [ll_event_tail, h]
  · simp [ll_event_tail, h]

lemma tail_nesn (c : ConnCtx) :
    (ll_event_tail c).1.next_expected_seq_num = c.next_expected_seq_num := by
  by_cases h : 6 < c.consecutive_crc_errors
  · simp [ll_event_tail, h]
  · simp [ll_event_tail, h]

lemma tail_pending (c : ConnCtx) : (ll_event_tail c).1.tx_pending = c.tx_pending := by
  by_cases h : 6 < c.consecutive_crc_errors
  · simp [ll_event_tail, h]
  · simp [ll_event_tail, h]

lemma tail_crc (c : ConnCtx) :
    (ll_event_tail c).1.consecutive_crc_errors = c.consecutive_crc_errors := by
  by_cases h : 6 < c.consecutive_crc_errors
  · simp [ll_event_tail, h]
  · simp [ll_event_tail, h]

lemma tail_anchor (c : ConnCtx) :
    (ll_event_tail c).1.anchor_point = c.anchor_point + c.conn_interval := by
  by_cases h : 6 < c.consecutive_crc_errors
  · simp [ll_event_tail, h]
  · simp [ll_event_tail, h]

lemma tail_counter (c : ConnCtx) :
    (ll_event_tail c).1.event_counter = c.event_counter + 1 := by
  by_cases h : 6 < c.consecutive_crc_errors
  · simp [ll_event_tail, h]
  · simp [ll_event_tail, h]

lemma tail_state (c : ConnCtx) :
    (ll_event_tail c).1.conn_state =
      (if 6 < c.consecutive_crc_errors then ConnState.idle else c.conn_state) := by
  by_cases h : 6 < c.consecutive_crc_errors
  · simp [ll_event_tail, h]
  · simp [ll_event_tail, h]

lemma tail_disc (c : ConnCtx) :
    (ll_event_tail c).2 =
      (if 6 < c.consecutive_crc_errors then some 0x08 else none) := by
  by_cases h : 6 < c.consecutive_crc_errors
  · simp [ll_event_tail, h]
  · simp [ll_event_tail, h]

set_option maxHeartbeats 2000000 in
lemma rx_done_spec (ctx : ConnCtx) (bytes : List Nat) :
    ((ll_event_rx ctx (RxOutcome.done bytes)).ctx.next_expected_seq_num =
      if (parse_data_pdu (write_front ctx.rx_buffer bytes)).sn = ctx.next_expected_seq_num
      then ctx.next_expected_seq_num ^^^ 1 else ctx.next_expected_seq_num) ∧
    ((ll_event_rx ctx (RxOutcome.done bytes)).ctx.consecutive_crc_errors = 0) ∧
    (¬ is_new_terminate ctx (parse_data_pdu (write_front ctx.rx_buffer bytes)) →
      (ll_event_rx ctx (RxOutcome.done bytes)).early = false ∧
      ((parse_data_pdu (write_front ctx.rx_buffer bytes)).nesn ≠ ctx.tx_seq_num →
        (ll_event_rx ctx (RxOutcome.done bytes)).ctx.tx_seq_num = ctx.tx_seq_num ^^^ 1 ∧
        (ll_event_rx ctx (RxOutcome.done bytes)).ctx.tx_pending = false) ∧
      ((parse_data_pdu (write_front ctx.rx_buffer bytes)).nesn = ctx.tx_seq_num →
        (ll_event_rx ctx (RxOutcome.done bytes)).ctx.tx_seq_num = ctx.tx_seq_num ∧
        (ctx.tx_pending = true → (ll_event_rx ctx (RxOutcome.done bytes)).ctx.tx_pending = true))) ∧
    (is_new_terminate ctx (parse_data_pdu (write_front ctx.rx_buffer bytes)) →
      (ll_event_rx ctx (RxOutcome.done bytes)).early = true ∧
      (ll_event_rx ctx (RxOutcome.done bytes)).ctx.tx_seq_num = ctx.tx_seq_num ∧
      (ll_event_rx ctx (RxOutcome.done bytes)).ctx.tx_pending = ctx.tx_pending ∧
      (ll_event_rx ctx (RxOutcome.done bytes)).ctx.conn_state = ConnState.idle) := by
  simp only [ll_event_rx]
  by_cases hsn : (parse_data_pdu (write_front ctx.rx_buffer bytes)).sn = ctx.next_expected_seq_num <;>
  by_cases hlen : 0 < (parse_data_pdu (write_front ctx.rx_buffer bytes)).length <;>
  by_cases hll2 : (parse_data_pdu (write_front ctx.rx_buffer bytes)).llid = 2 <;>
  by_cases hll3 : (parse_data_pdu (write_front ctx.rx_buffer bytes)).llid = 3 <;>
  by_cases hop2 : (parse_data_pdu (write_front ctx.rx_buffer bytes)).payload.getD 0 0 = 2 <;>
  by_cases hopC : (parse_data_pdu (write_front ctx.rx_buffer bytes)).payload.getD 0 0 = 0x0C <;>
  by_cases hop8 : (parse_data_pdu (write_front ctx.rx_buffer bytes)).payload.getD 0 0 = 8 <;>
  by_cases hack : (parse_data_pdu (write_front ctx.rx_buffer bytes)).nesn = ctx.tx_seq_num <;>
  simp_all [ll_ack_md, is_new_terminate]

lemma rx_timeout_spec (ctx : ConnCtx) :
    ll_event_rx ctx RxOutcome.timeout =
      { ctx := { ctx with
          consecutive_crc_errors := ctx.consecutive_crc_errors + 1
          total_crc_errors := ctx.total_crc_errors + 1 }
        delivered := none
        disconnected := none
        early := false } := rfl

lemma is_new_terminate_congr {c1 c2 : ConnCtx}
    (h : c1.next_expected_seq_num = c2.next_expected_seq_num) (p : DataPdu) :
    is_new_terminate c1 p ↔ is_new_terminate c2 p := by
  unfold is_new_terminate
  rw [h]

/-- Claim C1 as amended: the sequence-number state evolves as the
stop-and-wait protocol prescribes except on the early-return
LL_TERMINATE_IND path. On CRC error or RX timeout the error counter is
incremented and `tx_seq_num`, `next_expected_seq_num` and `tx_pending`
are untouched; on a valid PDU, `next_expected_seq_num` toggles exactly
when the received SN matches it; unless the PDU is a newly sequenced
LL_TERMINATE_IND, a received NESN differing from `tx_seq_num` toggles
`tx_seq_num` and clears `tx_pending`, while a matching NESN leaves
`tx_seq_num` alone and does not clear a pending transmission (the TX
buffer itself may still be overwritten when a FEATURE_REQ queues its
response); on the LL_TERMINATE_IND path the handler returns with
`tx_seq_num` and `tx_pending` unchanged and the connection Idle. -/
theorem claim_C1_amended :
    (∀ ctx : ConnCtx,
      (ll_handle_connection_event ctx RxOutcome.timeout).ctx.consecutive_crc_errors =
        ctx.consecutive_crc_errors + 1 ∧
      (ll_handle_connection_event ctx RxOutcome.timeout).ctx.tx_seq_num = ctx.tx_seq_num ∧
      (ll_handle_connection_event ctx RxOutcome.timeout).ctx.next_expected_seq_num =
        ctx.next_expected_seq_num ∧
      (ll_handle_connection_event ctx RxOutcome.timeout).ctx.tx_pending = ctx.tx_pending) ∧
    (∀ (ctx : ConnCtx) (bytes : List Nat),
      (ll_handle_connection_event ctx (RxOutcome.done bytes)).ctx.next_expected_seq_num =
        (if (parse_data_pdu (write_front ctx.rx_buffer bytes)).sn = ctx.next_expected_seq_num
         then ctx.next_expected_seq_num ^^^ 1 else ctx.next_expected_seq_num)) ∧
    (∀ (ctx : ConnCtx) (bytes : List Nat),
      ¬ is_new_terminate ctx (parse_data_pdu (write_front ctx.rx_buffer bytes)) →
      (((parse_data_pdu (write_front ctx.rx_buffer bytes)).nesn ≠ ctx.tx_seq_num →
        (ll_handle_connection_event ctx (RxOutcome.done bytes)).ctx.tx_seq_num =
          ctx.tx_seq_num ^^^ 1 ∧
        (ll_handle_connection_event ctx (RxOutcome.done bytes)).ctx.tx_pending = false) ∧
      ((parse_data_pdu (write_front ctx.rx_buffer bytes)).nesn = ctx.tx_seq_num →
        (ll_handle_connection_event ctx (RxOutcome.done bytes)).ctx.tx_seq_num = ctx.tx_seq_num ∧
        (ctx.tx_pending = true →
          (ll_handle_connection_event ctx (RxOutcome.done bytes)).ctx.tx_pending = true)))) ∧
    (∀ (ctx : ConnCtx) (bytes : List Nat),
      is_new_terminate ctx (parse_data_pdu (write_front ctx.rx_buffer bytes)) →
      (ll_handle_connection_event ctx (RxOutcome.done bytes)).ctx.tx_seq_num = ctx.tx_seq_num ∧
      (ll_handle_connection_event ctx (RxOutcome.done bytes)).ctx.tx_pending = ctx.tx_pending ∧
      (ll_handle_connection_event ctx (RxOutcome.done bytes)).ctx.conn_state = ConnState.idle) := by
  refine ⟨?_, ?_, ?_, ?_⟩
  · intro ctx
    obtain ⟨hst, hrxb, hnesn, hseq, hpend, hcrc, hanc, hint, hcnt, hmd⟩ := mid_fields ctx
    rw [handle_eq, rx_timeout_spec]
    simp [tail_crc, tail_seq, tail_nesn, tail_pending, hcrc, hseq, hnesn, hpend]
  · intro ctx bytes
    obtain ⟨hst, hrxb, hnesn, hseq, hpend, hcrc, hanc, hint, hcnt, hmd⟩ := mid_fields ctx
    have hs := (rx_done_spec (ll_event_mid ctx) bytes).1
    rw [hrxb, hnesn] at hs
    rw [handle_eq]
    by_cases he : (ll_event_rx (ll_event_mid ctx) (RxOutcome.done bytes)).early
    · simp [he, hs]
    · simp [he, tail_nesn, hs]
  · intro ctx bytes hterm
    obtain ⟨hst, hrxb, hnesn, hseq, hpend, hcrc, hanc, hint, hcnt, hmd⟩ := mid_fields ctx
    have hs := (rx_done_spec (ll_event_mid ctx) bytes).2.2.1
    rw [hrxb, hseq, hpend, is_new_terminate_congr hnesn] at hs
    obtain ⟨hearly, hne, heq⟩ := hs hterm
    rw [handle_eq]
    simp only [hearly, if_false, Bool.false_eq_true]
    constructor
    · intro h
      obtain ⟨h1, h2⟩ := hne h
      simp [tail_seq, tail_pending, h1, h2]
    · intro h
      obtain ⟨h1, h2⟩ := heq h
      constructor
      · simp [tail_seq, h1]
      · intro hp
        simp [tail_pending, h2 hp]
  · intro ctx bytes hterm
    obtain ⟨hst, hrxb, hnesn, hseq, hpend, hcrc, hanc, hint, hcnt, hmd⟩ := mid_fields ctx
    have hs := (rx_done_spec (ll_event_mid ctx) bytes).2.2.2
    rw [hrxb, hseq, hpend, is_new_terminate_congr hnesn] at hs
    obtain ⟨hearly, h1, h2, h3⟩ := hs hterm
    rw [handle_eq]
    simp [hearly, h1, h2, h3]

/-- Claim C7 as amended: the code disconnects with reason 0x08 based only
on the consecutive-CRC-error counter, not on elapsed time: an event with
no valid reception disconnects (Idle, reason 0x08) exactly when at least
6 consecutive errors had already accumulated, i.e. on the seventh
consecutive failed event. -/
theorem claim_C7_amended (ctx : ConnCtx) :
    (6 ≤ ctx.consecutive_crc_errors →
      (ll_handle_connection_event ctx RxOutcome.timeout).ctx.conn_state = ConnState.idle ∧
      (ll_handle_connection_event ctx RxOutcome.timeout).disconnected = some 0x08) ∧
    (ctx.consecutive_crc_errors < 6 →
      (ll_handle_connection_event ctx RxOutcome.timeout).ctx.conn_state = ctx.conn_state ∧
      (ll_handle_connection_event ctx RxOutcome.timeout).disconnected = none) := by
  obtain ⟨hst, hrxb, hnesn, hseq, hpend, hcrc, hanc, hint, hcnt, hmd⟩ := mid_fields ctx
  rw [handle_eq, rx_timeout_spec]
  constructor
  · intro h
    have h7 : 6 < ctx.consecutive_crc_errors + 1 := by omega
    simp [tail_state, tail_disc, hcrc, hst, h7]
  · intro h
    have h7 : ¬ 6 < ctx.consecutive_crc_errors + 1 := by omega
    simp [tail_state, tail_disc, hcrc, hst, h7]

/-- Witness for the amended claim C1 at concrete inputs: an empty ack PDU
0x05 0x00 (NESN=1, SN=0) toggles `tx_seq_num`, and the terminate PDU of
the counterexample leaves it unchanged while moving to Idle. -/
theorem claim_C1_amended_witness :
    ¬ is_new_terminate ctx_ex (parse_data_pdu (write_front ctx_ex.rx_buffer [0x05, 0x00])) ∧
    (ll_handle_connection_event ctx_ex (RxOutcome.done [0x05, 0x00])).ctx.tx_seq_num =
      ctx_ex.tx_seq_num ^^^ 1 ∧
    is_new_terminate ctx_pend
      (parse_data_pdu (write_front ctx_pend.rx_buffer [0x07, 0x02, 0x02, 0x13])) ∧
    (ll_handle_connection_event ctx_pend
      (RxOutcome.done [0x07, 0x02, 0x02, 0x13])).ctx.conn_state = ConnState.idle := by
  refine ⟨by decide, ?_, by decide, ?_⟩
  · exact ((claim_C1_amended.2.2.1 ctx_ex [0x05, 0x00] (by decide)).1 (by decide)).1
  · exact (claim_C1_amended.2.2.2 ctx_pend [0x07, 0x02, 0x02, 0x13] (by decide)).2.2

/-- Witness for the amended claim C7: from 6 accumulated consecutive CRC
errors, one more failed event disconnects with reason 0x08. -/
theorem claim_C7_amended_witness :
    6 ≤ ctx_crc6.consecutive_crc_errors ∧
    (ll_handle_connection_event ctx_crc6 RxOutcome.timeout).ctx.conn_state = ConnState.idle ∧
    (ll_handle_connection_event ctx_crc6 RxOutcome.timeout).disconnected = some 0x08 := by
  refine ⟨by decide, ?_, ?_⟩
  · exact ((claim_C7_amended ctx_crc6).1 (by decide)).1
  · exact ((claim_C7_amended ctx_crc6).1 (by decide)).2

set_option maxRecDepth 100000 in
/-- Claim C8: false on the code. `ble_ll_send_data` accepts `len` up to
251, but the 2-byte LL header, 4-byte L2CAP header and payload need
`len + 6` bytes, and `tx_buffer` holds only 255: for `len = 251` (and
250) the copy runs past the end of the buffer (undefined behaviour,
modelled as `none`), while `len = 249` is the largest length that stays
in bounds and succeeds. -/
theorem claim_C8_send_data_overflow :
    ctx_ex.tx_buffer.length = 255 ∧
    ble_ll_send_data ctx_ex (List.replicate 251 0xAB) = none ∧
    ble_ll_send_data ctx_ex (List.replicate 250 0xAB) = none ∧
    (ble_ll_send_data ctx_ex (List.replicate 249 0xAB)).map Prod.fst =
      some BleStatus.ok := by
  refine ⟨by decide, by decide, by decide, by decide⟩

/-- Claim C6: false on the code; the code contradicts its own comments.
`channel_freq_table[37]` is 2476 MHz, not the 2402 MHz that both the
claim and the comment on `ble_ll.c` line 171 state, so scanning is
programmed to 2476 MHz; channel 38 maps to 2478 MHz (not 2426) under the
table; and the table assigns data channels 0 and 12 the frequencies 2402
and 2426 MHz, which the claim reserves for advertising. The separate
`ble_ll_get_frequency` helper does map 37/38/39 to 2402/2426/2480 MHz,
but it is not the mapping `ble_ll_start_scanning` and the connection
event loop use. -/
theorem claim_C6_channel_frequency :
    channel_freq_table.getD 37 0 = 2476000000 ∧
    channel_freq_table.getD 38 0 = 2478000000 ∧
    channel_freq_table.getD 39 0 = 2480000000 ∧
    ((ble_ll_start_scanning { ctx_ex with conn_state := ConnState.idle }).2.2.map
      (fun pr => pr.rf_freq)) = some 2476000000 ∧
    ble_ll_get_frequency 37 = 2402000000 ∧
    ble_ll_get_frequency 38 = 2426000000 ∧
    ble_ll_get_frequency 39 = 2480000000 ∧
    channel_freq_table.getD 0 0 = 2402000000 ∧
    channel_freq_table.getD 12 0 = 2426000000 := by
  refine ⟨by decide, by decide, by decide, by decide, by decide, by decide, by decide,
    by decide, by decide⟩

/-- Claim C9: false on the code as stated. An ATT_EXCHANGE_MTU_RSP
carrying server MTU 5 stores `mtu = 5`, below the 23 floor the claim
asserts: only the upper clamp at 247 exists. -/
theorem claim_C9_mtu_not_clamped_below :
    (ble_gatt_handle_rx_data gatt_ex ctx_ex [0x03, 0x05, 0x00]).gatt.mtu = 5 ∧
    (ble_gatt_handle_rx_data gatt_ex ctx_ex [0x03, 0x05, 0x00]).gatt.mtu < 23 ∧
    (ble_gatt_handle_rx_data gatt_ex ctx_ex [0x03, 0x05, 0x00]).gatt.response_received = true := by
  refine ⟨by decide, by decide, by decide⟩

/-- Claim C9 as amended: processing an ATT_EXCHANGE_MTU_RSP stores the
16-bit server value capped above at 247 and never below, so the stored
MTU is always at most 247, and lies in [23, 247] exactly when the server
reported at least 23. -/
theorem claim_C9_amended (g : GattCtx) (ll : ConnCtx) (data : List Nat)
    (hop : data.getD 0 0 = 0x03) (hlen : data.length ≠ 0) :
    (ble_gatt_handle_rx_data g ll data).gatt.mtu = mtu_from_rsp data ∧
    (ble_gatt_handle_rx_data g ll data).gatt.mtu ≤ 247 ∧
    (23 ≤ (data.getD 1 0 ||| (data.getD 2 0 <<< 8)) &&& 0xFFFF →
      23 ≤ (ble_gatt_handle_rx_data g ll data).gatt.mtu) ∧
    (ble_gatt_handle_rx_data g ll data).gatt.response_received = true := by
  have h1 : data.getD 0 0 ≠ 0x01 := by rw [hop]; decide
  have hstep : (ble_gatt_handle_rx_data g ll data).gatt.mtu = mtu_from_rsp data ∧
      (ble_gatt_handle_rx_data g ll data).gatt.response_received = true := by
    unfold ble_gatt_handle_rx_data mtu_from_rsp
    simp_all
  have hb : mtu_from_rsp data ≤ 247 := by
    simp only [mtu_from_rsp]
    split
    · omega
    · omega
  have hge : 23 ≤ (data.getD 1 0 ||| (data.getD 2 0 <<< 8)) &&& 0xFFFF →
      23 ≤ mtu_from_rsp data := by
    intro h
    simp only [mtu_from_rsp]
    split
    · omega
    · omega
  refine ⟨hstep.1, ?_, ?_, hstep.2⟩
  · rw [hstep.1]
    exact hb
  · intro h
    rw [hstep.1]
    exact hge h

/-- Witness for the amended claim C9: a server MTU of exactly 23 is
stored unchanged. -/
theorem claim_C9_amended_witness :
    ([0x03, 23, 0] : List Nat).getD 0 0 = 0x03 ∧
    ([0x03, 23, 0] : List Nat).length ≠ 0 ∧
    (ble_gatt_handle_rx_data gatt_ex ctx_ex [0x03, 23, 0]).gatt.mtu = 23 := by
  refine ⟨by decide, by decide, ?_⟩
  have h := (claim_C9_amended gatt_ex ctx_ex [0x03, 23, 0] (by decide) (by decide)).1
  rw [h]
  decide

set_option maxRecDepth 100000 in
/-- Claim C10: false on the code as stated. ATT serialization is enforced
only through the link-layer `tx_pending` flag inside `ble_ll_send_data`:
while the first request PDU is unacknowledged a second request is indeed
rejected Busy, but one empty-PDU link-layer acknowledgement later (no ATT
response has arrived, `response_received` is still false) a second
request is accepted, so two ATT requests are outstanding at once. -/
theorem claim_C10_second_request_accepted :
    c10_s1.map Prod.fst = some BleStatus.ok ∧
    c10_g1.response_received = false ∧
    c10_ll1.tx_pending = true ∧
    (gatt_send_att_request c10_g1 c10_ll1 gatt_req_read3).map Prod.fst =
      some BleStatus.busy ∧
    c10_ll2.tx_pending = false ∧
    (ll_handle_connection_event c10_ll1 (RxOutcome.done [0x05, 0x00])).delivered = none ∧
    c10_g1.response_received = false ∧
    (gatt_send_att_request c10_g1 c10_ll2 gatt_req_read3).map Prod.fst =
      some BleStatus.ok := by
  refine ⟨by decide, by decide, by decide, by decide, by decide, by decide, by decide,
    by decide⟩

lemma send_data_busy (ctx : ConnCtx) (data : List Nat)
    (h0 : data.length ≠ 0) (h1 : data.length ≤ 251)
    (hconn : ctx.conn_state = ConnState.connected) (hpend : ctx.tx_pending = true) :
    ble_ll_send_data ctx data = some (BleStatus.busy, ctx) := by
  have hb : ¬ (data.length > 251) := by omega
  simp [ble_ll_send_data, h0, hb, hconn, hpend]

/-- Claim C10 as amended: while the link layer still holds an
unacknowledged PDU (`tx_pending = true`), any ATT request (READ_BY_TYPE,
READ or WRITE) submitted on a connected link is rejected with Busy and
leaves the LL context unchanged; the request has still cleared the
response flag. -/
theorem claim_C10_amended (g : GattCtx) (ll : ConnCtx) (req : AttMsg)
    (hconn : ll.conn_state = ConnState.connected)
    (hpend : ll.tx_pending = true)
    (hop : req.opcode = 0x08 ∨ req.opcode = 0x0A ∨ req.opcode = 0x12)
    (hmtu : g.mtu ≤ 247) :
    (gatt_send_att_request g ll req).map Prod.fst = some BleStatus.busy ∧
    (gatt_send_att_request g ll req).map (fun r => r.2.2) = some ll ∧
    (gatt_send_att_request g ll req).map (fun r => r.2.1.response_received) =
      some false := by
  rcases hop with h | h | h
  · simp [gatt_send_att_request, h, ble_ll_send_data, hconn, hpend]
  · simp [gatt_send_att_request, h, ble_ll_send_data, hconn, hpend]
  · have htake : (req.write_value.take (g.mtu - 3)).length ≤ g.mtu - 3 := by
      rw [List.length_take]
      exact Nat.min_le_left _ _
    have hsd := send_data_busy ll
      ([req.opcode, req.write_handle &&& 0xFF, (req.write_handle >>> 8) &&& 0xFF] ++
        req.write_value.take (g.mtu - 3))
      (by simp only [List.length_append, List.length_cons, List.length_nil]; omega)
      (by simp only [List.length_append, List.length_cons, List.length_nil]; omega)
      hconn hpend
    rw [h] at hsd
    simp only [List.cons_append, List.nil_append] at hsd
    simp [gatt_send_att_request, h, hsd]

/-- Witness for the amended claim C10: with the request PDU still pending
at the link layer, a read request is rejected Busy. -/
theorem claim_C10_amended_witness :
    ctx_pend.conn_state = ConnState.connected ∧
    ctx_pend.tx_pending = true ∧
    gatt_req_read3.opcode = 0x0A ∧
    gatt_ex.mtu ≤ 247 ∧
    (gatt_send_att_request gatt_ex ctx_pend gatt_req_read3).map Prod.fst =
      some BleStatus.busy := by
  refine ⟨by decide, by decide, by decide, by decide, ?_⟩
  exact (claim_C10_amended gatt_ex ctx_pend gatt_req_read3 (by decide) (by decide)
    (Or.inr (Or.inl (by decide))) (by decide)).1

end BleStack
